import Mathlib

/-!
Verification of the quote-tracking application (`app.py`) against its
specification.  The Python source is shallowly embedded: the `Quote`
pydantic model becomes a Lean structure, `generate_pdf` becomes a pure
function from a quote and a signature outcome to an abstract page value,
monetary `REAL` values are modelled as exact integer cents (the claims
under study only use amounts that are exact at two decimal places, where
Python float formatting and exact cents agree), and Python `None` becomes
`Option`.  A Python expression that raises is modelled by an `Option`
result being `none`.
-/

/-- The `Quote` pydantic model of `app.py` (lines 84-101).  `description`
and the filename and invoice fields are `Optional` in the source; `amount`
is `Optional[float]`, modelled as optional integer cents. -/
structure Quote where
  id : Int
  client_name : String
  quote_date : String
  category : String
  description : Option String
  amount : Option Int
  pdf_filename : Option String
  signed_pdf_filename : Option String
  invoice_amount : Option Int
  invoice_comment : Option String
  created_at : String
  updated_at : String
deriving DecidableEq

/-- The `month` property of `Quote`: the first 7 characters of
`quote_date` (`app.py` lines 98-101). -/
def Quote.month (q : Quote) : String :=
  q.quote_date.take 7

/-- Two-digit zero padding for the fractional part of an amount. -/
def pad2 (n : Int) : String :=
  if n < 10 then "0" ++ toString n else toString n

/-- Rendering of an amount in cents with exactly two decimal places, the
cents model of the Python format `f"\x7bquote.amount:.2f\x7d"`. -/
def formatCents (c : Int) : String :=
  toString (c / 100) ++ "." ++ pad2 (c % 100)

/-- Formatting of the optional amount.  When `quote.amount` is `None` the
Python format expression raises `TypeError`, modelled by `none`. -/
def formatAmount : Option Int → Option String
  | none => none
  | some c => some (formatCents c)

/-- Splitting on the newline character, the Python `str.split("\n")`:
pieces between newlines are kept, empty pieces included. -/
def splitNlAux : List Char → List Char → List String
  | [], acc => [String.mk acc.reverse]
  | c :: cs, acc =>
      if c = '\n' then String.mk acc.reverse :: splitNlAux cs []
      else splitNlAux cs (c :: acc)

/-- Splitting a string on newlines. -/
def splitNl (s : String) : List String :=
  splitNlAux s.data []

/-- The description block of `generate_pdf` (`app.py` lines 137-142): the
description split on line breaks when truthy, a placeholder otherwise
(Python `None` and the empty string are both falsy). -/
def descriptionLines (d : Option String) : List String :=
  match d with
  | none => ["(aucune description)"]
  | some s => if s = "" then ["(aucune description)"] else splitNl s

/-- The ordered text lines composed by `generate_pdf` (`app.py` lines
128-142).  `none` when the amount format raises. -/
def composeLines (q : Quote) : Option (List String) :=
  match formatAmount q.amount with
  | none => none
  | some amt =>
      some (["Devis n° " ++ toString q.id,
             "Client : " ++ q.client_name,
             "Date : " ++ q.quote_date,
             "Catégorie : " ++ q.category,
             "Montant : " ++ amt ++ " EUR",
             "",
             "Description :"] ++ descriptionLines q.description)

/-- The drawing loop of `generate_pdf` (`app.py` lines 144-151): starting
from a given y, each line is drawn at `(40, y)` and y is decremented by
the line height 20.  The page uses the PIL coordinate system: the origin
is the top-left corner and y grows downward. -/
def placeLines : List String → Int → List (Int × Int × String)
  | [], _ => []
  | l :: rest, y => (40, y, l) :: placeLines rest (y - 20)

/-- A source signature image, abstracted to its pixel dimensions (PIL
images have positive dimensions). -/
structure SigImage where
  width : Nat
  height : Nat
deriving DecidableEq

/-- The outcome of supplying a signature to `generate_pdf`:
  * `noPath`: no path supplied, or the path does not exist
    (the `if signature_path and signature_path.exists()` guard);
  * `failed`: the guard passed but opening, decoding, resizing or
    compositing raised (swallowed by the `except` at line 171);
  * `ok img`: the image decoded with the given dimensions. -/
inductive SigInput where
  | noPath
  | failed
  | ok (img : SigImage)
deriving DecidableEq

/-- The uniform scale factor of `app.py` line 161:
`min(200 / width, 100 / height, 1.0)`, with Python float division
modelled exactly over the rationals. -/
def sigRatio (w h : Nat) : ℚ :=
  min (200 / (w : ℚ)) (min (100 / (h : ℚ)) 1)

/-- The resized signature dimensions of `app.py` line 162:
`(int(width * ratio), int(height * ratio))`; `int()` truncates, which on
these nonnegative values is the floor. -/
def sigNewSize (w h : Nat) : Int × Int :=
  (⌊(w : ℚ) * sigRatio w h⌋, ⌊(h : ℚ) * sigRatio w h⌋)

/-- The abstract content of the rendered page: the drawn text lines with
their positions, and the pasted signature (source image, resized
dimensions, paste position) when one was composited. -/
structure Page where
  texts : List (Int × Int × String)
  signature : Option (SigImage × (Int × Int) × (Int × Int))
deriving DecidableEq

/-- The signature block of `generate_pdf` (`app.py` lines 153-173): on
success the resized image is pasted at
`(width - x_margin - new_width, 40)`; any failure leaves the page as it
was. -/
def applySignature (p : Page) : SigInput → Page
  | SigInput.noPath => p
  | SigInput.failed => p
  | SigInput.ok img =>
      let ns := sigNewSize img.width img.height
      { p with signature := some (img, ns, (595 - 40 - ns.1, 40)) }

/-- The page produced by `generate_pdf` (`app.py` lines 104-181) for a
quote and a signature outcome: the composed lines drawn downward in y
from 780, then the optional signature.  `none` when composing the lines
raises (amount is `None`); the filename and timestamp are not part of the
page content. -/
def generatePdf (q : Quote) (sig : SigInput) : Option Page :=
  match composeLines q with
  | none => none
  | some ls => some (applySignature { texts := placeLines ls 780, signature := none } sig)

/-- The example quote of the specification: id 7, client Acme, dated
2024-03-02, category Plumbing, amount 150.00, no description, no
signature, no invoice. -/
def exampleQuote : Quote :=
  { id := 7
    client_name := "Acme"
    quote_date := "2024-03-02"
    category := "Plumbing"
    description := some ""
    amount := some 15000
    pdf_filename := none
    signed_pdf_filename := none
    invoice_amount := none
    invoice_comment := none
    created_at := "2024-03-02T00:00:00"
    updated_at := "2024-03-02T00:00:00" }

example : composeLines exampleQuote =
    some ["Devis n° 7", "Client : Acme", "Date : 2024-03-02",
          "Catégorie : Plumbing", "Montant : 150.00 EUR", "",
          "Description :", "(aucune description)"] := by decide

/-! ## Status classifier

The repository under `src/` has no status-classification code: `app.py`
stores `invoice_amount` and `signed_pdf_filename` but contains no
`classify` function (the status is described only in the specification,
for a near-duplicate variant).  The classifier is therefore modelled from
the specification. -/

/-- The five display statuses of the specification. -/
inductive Status where
  | Paid
  | Rejected
  | Sent
  | Expired
  | Draft
deriving DecidableEq

/-- Parse of an ISO `YYYY-MM-DD` date into year, month, day; degenerate
input parses to `(0, 0, 0)`. -/
def parseDate (s : String) : Nat × Nat × Nat :=
  match (s.splitOn "-").map String.toNat? with
  | [some y, some m, some d] => (y, m, d)
  | _ => (0, 0, 0)

/-- Day number of a civil date (days since 1970-01-01, the standard
days-from-civil computation). -/
def daysFromCivil (y m d : Int) : Int :=
  let yAdj : Int := if m ≤ 2 then y - 1 else y
  let era : Int := (if 0 ≤ yAdj then yAdj else yAdj - 399) / 400
  let yoe : Int := yAdj - era * 400
  let mp : Int := (m + 9) % 12
  let doy : Int := (153 * mp + 2) / 5 + d - 1
  let doe : Int := yoe * 365 + yoe / 4 - yoe / 100 + doy
  era * 146097 + doe - 719468

/-- Day number of an ISO date string. -/
def dateToDays (s : String) : Int :=
  daysFromCivil (parseDate s).1 (parseDate s).2.1 (parseDate s).2.2

/-- Modelled from the spec: the Status Classifier of specification
section 4.2 is absent from `src/` (the repository stores the fields it
reads but ships no classify code).  First matching rule wins:
1. `invoice_amount` set and (`amount` null, zero, or
   `invoice_amount >= amount`) gives Paid;
2. else `invoice_amount` set gives Rejected;
3. else a signed document exists gives Sent;
4. else `today - quote_date > 30` days gives Expired;
5. else Draft. -/
def classify (q : Quote) (today : String) : Status :=
  match q.invoice_amount with
  | some inv =>
      match q.amount with
      | none => Status.Paid
      | some a => if a = 0 then Status.Paid
                  else if a ≤ inv then Status.Paid
                  else Status.Rejected
  | none =>
      if q.signed_pdf_filename.isSome then Status.Sent
      else if 30 < dateToDays today - dateToDays q.quote_date then Status.Expired
      else Status.Draft

/-! ## Bulk import (`import_excel`, `app.py` lines 271-330) -/

/-- One spreadsheet row as seen by the import loop: the four text columns
after Python `str(...)` coercion, and the amount cell, where `none`
models a value on which `float(...)` raises. -/
structure ImportRow where
  client_name : String
  quote_date : String
  category : String
  description : String
  amount : Option Int
deriving DecidableEq

/-- The data inserted for one accepted row: trimmed client, trimmed date,
trimmed category, description, amount. -/
def RowInsert : Type := String × String × String × String × Int
deriving instance DecidableEq for RowInsert

/-- Dropping leading whitespace characters from a character list. -/
def dropLeadingWs : List Char → List Char
  | [] => []
  | c :: cs => if c.isWhitespace then dropLeadingWs cs else c :: cs

/-- The Python `str.strip()`: whitespace removed from both ends. -/
def pyStrip (s : String) : String :=
  String.mk (dropLeadingWs (dropLeadingWs s.data).reverse).reverse

/-- One iteration of the import loop (`app.py` lines 296-323): the amount
coercion `float(row_data.get("amount", 0.0))` runs first and a raise is
caught by the per-row `except` (skip); then the three required text
fields are trimmed and the row is skipped when any is empty; otherwise
the row is inserted. -/
def rowOutcome (r : ImportRow) : Option RowInsert :=
  match r.amount with
  | none => none
  | some amt =>
      let client := pyStrip r.client_name
      let date := pyStrip r.quote_date
      let cat := pyStrip r.category
      if client = "" ∨ date = "" ∨ cat = "" then none
      else some (client, date, cat, r.description, amt)

/-- The import loop over all rows: the list of inserted quotes and the
final `imported_count`. -/
def importExcel : List ImportRow → List RowInsert × Nat
  | [] => ([], 0)
  | r :: rest =>
      match rowOutcome r with
      | none => importExcel rest
      | some q => ((importExcel rest).1.cons q, (importExcel rest).2 + 1)

/-- The validity notion used by the claim: the three required text fields
are non-empty after coercion to text and trimming. -/
def textFieldsValid (r : ImportRow) : Bool :=
  !(pyStrip r.client_name = "") && !(pyStrip r.quote_date = "") && !(pyStrip r.category = "")

/-- Full per-row success: the three text fields are non-empty and the
amount cell coerces to a number. -/
def rowFullyValid (r : ImportRow) : Bool :=
  r.amount.isSome && textFieldsValid r

/-! ## List view month filter (`index`, `app.py` lines 228-262) -/

/-- Character-wise string prefix test. -/
def strIsPrefix (m s : String) : Bool :=
  m.data.isPrefixOf s.data

/-- The month filter of the list view: `quote_date LIKE "month%"`; for a
month key (digits and a hyphen, no SQL wildcard), the `LIKE` pattern is
exactly a prefix match on `quote_date`. -/
def monthFilter (m : String) (qs : List Quote) : List Quote :=
  qs.filter (fun q => strIsPrefix m q.quote_date)

/-! ## Download and sign handlers -/

/-- Python truthiness of an optional string: `None` and the empty string
are falsy. -/
def strTruthy : Option String → Bool
  | none => false
  | some s => !(s = "")

/-- A handler response: a served file, a redirect to the list view, a
redirect to a quote detail view, or an unhandled exception. -/
inductive Response where
  | file (name : String)
  | redirectHome
  | redirectDetail (id : Int)
  | serverError
deriving DecidableEq

/-- The `download_pdf` handler (`app.py` lines 406-417): look the quote
up, pick `signed_pdf_filename` when `signed` is requested and that field
is truthy, else `pdf_filename`; redirect to the detail view when the
picked name is falsy, else serve the file. -/
def download_pdf (db : List Quote) (qid : Int) (signed : Bool) : Response :=
  match db.find? (fun q => q.id == qid) with
  | none => Response.redirectHome
  | some q =>
      let filename : Option String :=
        if signed && strTruthy q.signed_pdf_filename then q.signed_pdf_filename
        else q.pdf_filename
      match filename with
      | none => Response.redirectDetail qid
      | some f => if f = "" then Response.redirectDetail qid else Response.file f

example : download_pdf [exampleQuote] 7 true = Response.redirectDetail 7 := by decide

/-- The extension rule of Python `Path(name).suffix`: the part of the
final component from its last dot on, empty when there is no dot, when
the only dot is the leading character, or when the dot is the final
character. -/
def pathSuffix (name : String) : String :=
  let rev := name.data.reverse
  let ext := rev.takeWhile (fun c => c ≠ '.')
  if ext.length = rev.length then ""
  else if ext.length = 0 then ""
  else if ext.length + 1 = rev.length then ""
  else "." ++ String.mk ext.reverse

example : pathSuffix "sig.PNG" = ".PNG" := by decide
example : pathSuffix "noext" = "" := by decide
example : pathSuffix "a.tar.gz" = ".gz" := by decide

/-- The state touched by the signing flow: the quotes table, the files of
the signature directory and the files of the upload directory. -/
structure AppState where
  db : List Quote
  sigFiles : List String
  dataFiles : List String
deriving DecidableEq

/-- Character-wise ASCII lowercasing, the Python `str.lower()` on
filename suffixes. -/
def pyLower (s : String) : String :=
  String.mk (s.data.map Char.toLower)

/-- `save_signature` (`app.py` lines 184-201): reject any upload whose
lowercased suffix is not `.png`, `.jpg` or `.jpeg` (returning `None`);
otherwise write the bytes under a timestamped name in the signature
directory and return that path.  The wall-clock timestamp is passed in as
`ts`. -/
def save_signature (st : AppState) (uploadName ts : String) :
    AppState × Option String :=
  let suffix := pathSuffix uploadName
  if (pyLower suffix = ".png" ∨ pyLower suffix = ".jpg" ∨ pyLower suffix = ".jpeg") then
    let sigName := "sig_" ++ ts ++ suffix
    ({ st with sigFiles := st.sigFiles ++ [sigName] }, some sigName)
  else (st, none)

/-- The `sign_quote` handler (`app.py` lines 457-484): first persist the
signature via `save_signature` (redirecting to the detail view when it is
rejected), only then look the quote up (redirecting to the list view when
it is unknown), then regenerate the document with the signature and
update the record.  `sigDecode` is what the renderer finds when it opens
the saved signature file; a raise out of `generate_pdf` (amount `None`)
escapes the handler. -/
def sign_quote (st : AppState) (qid : Int) (uploadName ts : String)
    (sigDecode : SigInput) : AppState × Response :=
  let saved := save_signature st uploadName ts
  match saved.2 with
  | none => (saved.1, Response.redirectDetail qid)
  | some _ =>
      match saved.1.db.find? (fun q => q.id == qid) with
      | none => (saved.1, Response.redirectHome)
      | some q =>
          match generatePdf q sigDecode with
          | none => (saved.1, Response.serverError)
          | some _ =>
              let fname := "quote_" ++ toString q.id ++ "_" ++ ts ++ ".pdf"
              let newDb := saved.1.db.map (fun r =>
                if r.id == qid then
                  { r with signed_pdf_filename := some fname, updated_at := ts }
                else r)
              ({ saved.1 with
                  db := newDb
                  dataFiles := saved.1.dataFiles ++ [fname] },
               Response.redirectDetail qid)

/-! ## Helper lemmas -/

/-- Closed form of the drawing loop: the i-th drawn line sits at x = 40
and y = start minus 20 times i. -/
theorem placeLines_get (ls : List String) : ∀ (y : Int) (i : Nat),
    (placeLines ls y).get? i = (ls.get? i).map (fun l => ((40 : Int), y - 20 * (i : Int), l)) := by
  induction ls with
  | nil => intro y i; simp [placeLines]
  | cons l rest ih =>
      intro y i
      cases i with
      | zero => simp [placeLines]
      | succ n =>
          have harith : y - 20 - 20 * (n : Int) = y - 20 * ((n : Int) + 1) := by ring
          have hc : ((n + 1 : Nat) : Int) = (n : Int) + 1 := by push_cast; ring
          show (placeLines rest (y - 20)).get? n =
            (rest.get? n).map (fun l => ((40 : Int), y - 20 * ((n + 1 : Nat) : Int), l))
          rw [ih (y - 20) n]
          simp only [hc, harith]

/-- The signature block never touches the drawn text lines. -/
theorem applySignature_texts (p : Page) (s : SigInput) :
    (applySignature p s).texts = p.texts := by
  cases s <;> rfl

/-! ## Claim theorems -/

/-- Claim C1 (spec-modelled): `classify(quote, today)` is a pure function
into the five statuses evaluated by a strict priority chain: invoice set
with amount null, zero, or covered gives Paid; invoice set otherwise
gives Rejected; else a signed document gives Sent; else an age over 30
days gives Expired; else Draft.  A quote with an invoice is never
Expired, and an invoice equal to the amount is Paid. -/
theorem classify_priority_chain (q : Quote) (today : String) :
    (∀ inv, q.invoice_amount = some inv → classify q today ≠ Status.Expired) ∧
    (∀ v, q.invoice_amount = some v → q.amount = some v →
      classify q today = Status.Paid) ∧
    (∀ inv, q.invoice_amount = some inv → q.amount = none →
      classify q today = Status.Paid) ∧
    (∀ inv a, q.invoice_amount = some inv → q.amount = some a →
      (a = 0 ∨ a ≤ inv) → classify q today = Status.Paid) ∧
    (∀ inv a, q.invoice_amount = some inv → q.amount = some a →
      a ≠ 0 → inv < a → classify q today = Status.Rejected) ∧
    (q.invoice_amount = none → q.signed_pdf_filename.isSome = true →
      classify q today = Status.Sent) ∧
    (q.invoice_amount = none → q.signed_pdf_filename = none →
      30 < dateToDays today - dateToDays q.quote_date →
      classify q today = Status.Expired) ∧
    (q.invoice_amount = none → q.signed_pdf_filename = none →
      ¬ (30 < dateToDays today - dateToDays q.quote_date) →
      classify q today = Status.Draft) := by
  refine ⟨?_, ?_, ?_, ?_, ?_, ?_, ?_, ?_⟩
  · intro inv h
    cases ha : q.amount with
    | none => simp [classify, h, ha]
    | some a =>
        simp only [classify, h, ha]
        split
        · simp
        · split <;> simp
  · intro v h1 h2
    simp [classify, h1, h2]
  · intro inv h1 h2
    simp [classify, h1, h2]
  · intro inv a h1 h2 h3
    rcases h3 with h3 | h3 <;> simp [classify, h1, h2, h3]
  · intro inv a h1 h2 h3 h4
    simp only [classify, h1, h2]
    rw [if_neg h3, if_neg (not_le.mpr h4)]
  · intro h1 h2
    simp [classify, h1, h2]
  · intro h1 h2 h3
    simp [classify, h1, h2, h3]
  · intro h1 h2 h3
    simp [classify, h1, h2, h3]

/-- Claim C1 witness: a concrete quote with invoice equal to amount is
Paid. -/
theorem classify_priority_chain_witness :
    classify { exampleQuote with invoice_amount := some 15000 } "2024-05-01" = Status.Paid :=
  (classify_priority_chain { exampleQuote with invoice_amount := some 15000 } "2024-05-01").2.1
    15000 rfl rfl

/-- The example quote with a two-line description in place of the empty
one. -/
def exampleQuoteMultiline : Quote :=
  { id := 7
    client_name := "Acme"
    quote_date := "2024-03-02"
    category := "Plumbing"
    description := some "Ligne 1\nLigne 2"
    amount := some 15000
    pdf_filename := none
    signed_pdf_filename := none
    invoice_amount := none
    invoice_comment := none
    created_at := "2024-03-02T00:00:00"
    updated_at := "2024-03-02T00:00:00" }

/-- Claim C3: for the example quote (id 7, Acme, 2024-03-02, Plumbing,
150.00, no signature) `generate_pdf` composes exactly the stated ordered
lines with the amount at two decimal places and the EUR suffix, a blank
separator, the description label, and the placeholder when the
description is empty; a multi-line description is split on line
breaks. -/
theorem compose_lines_example :
    composeLines exampleQuote =
      some ["Devis n° 7", "Client : Acme", "Date : 2024-03-02",
            "Catégorie : Plumbing", "Montant : 150.00 EUR", "",
            "Description :", "(aucune description)"] ∧
    composeLines exampleQuoteMultiline =
      some ["Devis n° 7", "Client : Acme", "Date : 2024-03-02",
            "Catégorie : Plumbing", "Montant : 150.00 EUR", "",
            "Description :", "Ligne 1", "Ligne 2"] := by decide

/-- Claim C5: a signature whose image fails to open, decode or composite
yields exactly the page of a render with no signature supplied, and
whether rendering succeeds at all never depends on the signature
input. -/
theorem signature_failure_ignored (q : Quote) :
    generatePdf q SigInput.failed = generatePdf q SigInput.noPath ∧
    ∀ (s : SigInput), (generatePdf q s).isSome = (generatePdf q SigInput.noPath).isSome := by
  constructor
  · unfold generatePdf; cases composeLines q <;> rfl
  · intro s; unfold generatePdf; cases composeLines q <;> cases s <;> rfl

/-- Claim C9: rendering requires the amount: with `amount = None` the
format expression raises before any page is produced, and with an amount
present rendering always yields a page. -/
theorem generate_pdf_amount_precondition (q : Quote) (s : SigInput) :
    (q.amount = none → generatePdf q s = none) ∧
    (∀ a, q.amount = some a → (generatePdf q s).isSome = true) := by
  constructor
  · intro h; simp [generatePdf, composeLines, formatAmount, h]
  · intro a h; simp [generatePdf, composeLines, formatAmount, h]

/-- Claim C9 witness: the example quote with its amount nulled fails to
render. -/
theorem generate_pdf_amount_precondition_witness :
    generatePdf { exampleQuote with amount := none } SigInput.noPath = none :=
  (generate_pdf_amount_precondition { exampleQuote with amount := none } SigInput.noPath).1 rfl

/-- Claim C2 counterexample: for the example quote the drawn y
coordinates are 780, 760, 740, ... — the second line sits at y = 780 - 20
and not at y = 780 + 20, so on the PIL page (origin top-left, y growing
downward) each subsequent line is 20 units nearer the TOP edge than the
previous one, not below it, and the first line starts at y = 780, near
the bottom of the 842-unit-high page, not near the top margin. -/
theorem lines_stack_upward_counterexample :
    (generatePdf exampleQuote SigInput.noPath).map (fun p => p.texts.map (fun t => t.2.1)) =
      some [780, 760, 740, 720, 700, 680, 660, 640] ∧
    ¬ ((760 : Int) = 780 + 20) := by decide

/-- Claim C2 amended: the drawing loop starts at y = 780 (near the bottom
edge of the 842-unit page in the top-left-origin coordinate system) and
places each subsequent line 20 units above the previous one: the i-th
composed line is drawn at x = 40, y = 780 - 20 i. -/
theorem lines_stack_upward (q : Quote) (s : SigInput) (p : Page) (i : Nat)
    (t : Int × Int × String) (hp : generatePdf q s = some p)
    (ht : p.texts.get? i = some t) :
    t.1 = 40 ∧ t.2.1 = 780 - 20 * (i : Int) := by
  unfold generatePdf at hp
  cases hc : composeLines q with
  | none => rw [hc] at hp; exact absurd hp (by simp)
  | some ls =>
      rw [hc] at hp
      have hpage : p.texts = placeLines ls 780 := by
        cases hp
        rw [applySignature_texts]
      rw [hpage, placeLines_get] at ht
      cases hl : ls.get? i with
      | none => rw [hl] at ht; exact absurd ht (by simp)
      | some l =>
          rw [hl] at ht
          cases ht
          exact ⟨rfl, rfl⟩

/-- Claim C2 witness: the second drawn line of the example quote sits at
x = 40 and y = 780 - 20. -/
theorem lines_stack_upward_witness :
    ((40 : Int), (760 : Int), "Client : Acme").1 = 40 ∧
    ((40 : Int), (760 : Int), "Client : Acme").2.1 = 780 - 20 * ((1 : Nat) : Int) :=
  lines_stack_upward exampleQuote SigInput.noPath
    { texts := placeLines ["Devis n° 7", "Client : Acme", "Date : 2024-03-02",
        "Catégorie : Plumbing", "Montant : 150.00 EUR", "",
        "Description :", "(aucune description)"] 780,
      signature := none }
    1 (40, 760, "Client : Acme") (by decide) (by decide)

/-- Relation between full per-row success and the loop body: a row yields
an insertion exactly when its amount coerces and its three text fields
are non-empty. -/
theorem rowFullyValid_eq (r : ImportRow) : rowFullyValid r = (rowOutcome r).isSome := by
  cases h : r.amount with
  | none => simp [rowFullyValid, rowOutcome, h]
  | some a =>
      simp only [rowFullyValid, textFieldsValid, rowOutcome, h, Option.isSome_some,
        Bool.true_and]
      split
      · rename_i hP
        rcases hP with hP | hP | hP <;> simp [hP]
      · rename_i hP
        push_neg at hP
        simp [hP.1, hP.2.1, hP.2.2]

/-- A row whose three required text fields are non-empty but whose amount
cell does not coerce to a number. -/
def badRow : ImportRow :=
  { client_name := "Acme"
    quote_date := "2024-03-02"
    category := "Plumbing"
    description := ""
    amount := none }

/-- Claim C4 counterexample: a single-row table whose row has all three
required text fields non-empty yet an uncoercible amount imports 0 rows,
not the 1 the claim counts: the amount coercion is a fourth per-row
requirement. -/
theorem import_count_counterexample :
    textFieldsValid badRow = true ∧
    (importExcel [badRow]).2 ≠ ([badRow].filter textFieldsValid).length := by decide

/-- Claim C4 amended: for every imported table the import inserts exactly
K quotes and ends with `imported_count = K`, where K counts the rows
whose three required text fields are non-empty after coercion to text
and trimming AND whose amount coerces to a number; a bad row is skipped,
never aborting the import. -/
theorem import_count (rows : List ImportRow) :
    (importExcel rows).2 = (rows.filter rowFullyValid).length ∧
    (importExcel rows).1.length = (importExcel rows).2 := by
  induction rows with
  | nil => simp [importExcel]
  | cons r rest ih =>
      cases h : rowOutcome r with
      | none =>
          have hv : rowFullyValid r = false := by rw [rowFullyValid_eq, h]; rfl
          simp [importExcel, h, List.filter_cons, hv, ih.1, ih.2]
      | some q =>
          have hv : rowFullyValid r = true := by rw [rowFullyValid_eq, h]; rfl
          simp [importExcel, h, List.filter_cons, hv, ih.1, ih.2]

/-- Claim C6: the signature scale factor is
`min(200 / width, 100 / height, 1.0)` and never upscales: a source image
already inside the 200 by 100 box keeps exactly its original pixel
dimensions. -/
theorem signature_never_upscaled (w h : Nat) (hw1 : 1 ≤ w) (hw2 : w ≤ 200)
    (hh1 : 1 ≤ h) (hh2 : h ≤ 100) :
    sigRatio w h = 1 ∧ sigNewSize w h = ((w : Int), (h : Int)) := by
  have hw0 : (0 : ℚ) < (w : ℚ) := by exact_mod_cast Nat.lt_of_lt_of_le Nat.zero_lt_one hw1
  have hh0 : (0 : ℚ) < (h : ℚ) := by exact_mod_cast Nat.lt_of_lt_of_le Nat.zero_lt_one hh1
  have h200 : (w : ℚ) ≤ 200 := by exact_mod_cast hw2
  have h100 : (h : ℚ) ≤ 100 := by exact_mod_cast hh2
  have hr1 : (1 : ℚ) ≤ 200 / (w : ℚ) := by rw [le_div_iff₀ hw0]; linarith
  have hr2 : (1 : ℚ) ≤ 100 / (h : ℚ) := by rw [le_div_iff₀ hh0]; linarith
  have hratio : sigRatio w h = 1 := by
    unfold sigRatio
    rw [min_eq_right hr2, min_eq_right hr1]
  refine ⟨hratio, ?_⟩
  unfold sigNewSize
  rw [hratio, mul_one, mul_one, Int.floor_natCast, Int.floor_natCast]

/-- Claim C6 witness: a 150 by 80 signature is pasted at exactly 150 by
80. -/
theorem signature_never_upscaled_witness :
    sigRatio 150 80 = 1 ∧ sigNewSize 150 80 = ((150 : Int), (80 : Int)) :=
  signature_never_upscaled 150 80 (by decide) (by decide) (by decide) (by decide)

/-- Claim C7: the month grouping key is exactly the first 7 characters of
`quote_date` (so it changes with `quote_date` and depends on no other
field), and the month filter of the list view keeps exactly the quotes
whose `quote_date` begins with the given month string. -/
theorem month_key_and_filter :
    (∀ (q : Quote) (d : String), Quote.month { q with quote_date := d } = d.take 7) ∧
    (∀ q1 q2 : Quote, q1.quote_date = q2.quote_date → Quote.month q1 = Quote.month q2) ∧
    (∀ (m : String) (qs : List Quote) (q : Quote),
      q ∈ monthFilter m qs ↔ q ∈ qs ∧ strIsPrefix m q.quote_date = true) := by
  refine ⟨fun q d => rfl, fun q1 q2 h => by simp [Quote.month, h],
    fun m qs q => by simp [monthFilter, List.mem_filter]⟩

/-- Claim C7 witness: the month key of the example quote agrees with that
of the same quote under a different category, and the example quote
passes the 2024-03 month filter. -/
theorem month_key_and_filter_witness :
    Quote.month exampleQuote = Quote.month { exampleQuote with category := "Roofing" } ∧
    exampleQuote ∈ monthFilter "2024-03" [exampleQuote] :=
  ⟨month_key_and_filter.2.1 exampleQuote { exampleQuote with category := "Roofing" } rfl,
   (month_key_and_filter.2.2 "2024-03" [exampleQuote] exampleQuote).mpr
     ⟨by simp, by decide⟩⟩

/-- Claim C8: for an existing quote, a download with `signed = true`
serves the signed document whenever `signed_pdf_filename` holds a
non-empty name, and otherwise falls back to the unsigned document of
`pdf_filename` (the source tests Python truthiness, so an empty-string
name counts as unset). -/
theorem download_signed_fallback (db : List Quote) (qid : Int) (q : Quote)
    (hfind : db.find? (fun r => r.id == qid) = some q) :
    (∀ f, q.signed_pdf_filename = some f → f ≠ "" →
      download_pdf db qid true = Response.file f) ∧
    (strTruthy q.signed_pdf_filename = false → ∀ g, q.pdf_filename = some g → g ≠ "" →
      download_pdf db qid true = Response.file g) := by
  constructor
  · intro f hf hne
    simp [download_pdf, hfind, hf, strTruthy, hne]
  · intro hs g hg hne
    simp [download_pdf, hfind, hs, hg, hne]

/-- Claim C8 witness: a quote holding both a signed and an unsigned
document name serves the signed one on a signed download. -/
theorem download_signed_fallback_witness :
    download_pdf
      [{ exampleQuote with signed_pdf_filename := some "s.pdf", pdf_filename := some "u.pdf" }]
      7 true = Response.file "s.pdf" :=
  (download_signed_fallback
      [{ exampleQuote with signed_pdf_filename := some "s.pdf", pdf_filename := some "u.pdf" }]
      7 { exampleQuote with signed_pdf_filename := some "s.pdf", pdf_filename := some "u.pdf" }
      (by decide)).1 "s.pdf" rfl (by decide)

/-- Claim C10: `sign_quote` persists the uploaded signature before
checking that the quote exists: for an accepted extension and an unknown
quote id, a signature file is written to the signature directory, the
quotes table and the document directory are untouched, and the response
redirects to the list view. -/
theorem sign_unknown_quote_writes_file (st : AppState) (qid : Int)
    (name ts : String) (dec : SigInput)
    (hext : pyLower (pathSuffix name) = ".png" ∨ pyLower (pathSuffix name) = ".jpg" ∨
      pyLower (pathSuffix name) = ".jpeg")
    (hfind : st.db.find? (fun q => q.id == qid) = none) :
    sign_quote st qid name ts dec =
      ({ st with sigFiles := st.sigFiles ++ ["sig_" ++ ts ++ pathSuffix name] },
       Response.redirectHome) := by
  unfold sign_quote save_signature
  rw [if_pos hext]
  simp [hfind]

/-- Claim C10 witness: uploading `sig.png` against an empty quotes table
writes the signature file yet changes no quote and redirects home. -/
theorem sign_unknown_quote_writes_file_witness :
    sign_quote (AppState.mk [] [] []) 5 "sig.png" "T" SigInput.noPath =
      ({ AppState.mk [] [] [] with
          sigFiles := [] ++ ["sig_" ++ "T" ++ pathSuffix "sig.png"] },
       Response.redirectHome) :=
  sign_unknown_quote_writes_file (AppState.mk [] [] []) 5 "sig.png" "T" SigInput.noPath
    (by decide) rfl

